import Mathlib

/-!
Shallow embedding of the ControlRiego 2.5 irrigation controller
(source files `Control.cpp`, `multirriego.cpp`, `botones.cpp`,
`Configure.cpp`, header `Control.h`).

Machine integers are modelled as `Nat` with explicit reductions modulo
`2 ^ 8` (uint8_t) and `2 ^ 32` (unsigned/unsigned long) where the C code
can overflow.  Side effects of the C functions (HTTP calls to Domoticz,
display and LED commands, buzzer, global mutation of `Estado`) are made
explicit: the network is an environment record consumed by the function,
and the mutated globals are fields of explicit state/result records.
-/

namespace Riego

/-- System states, from `enum _estados` in `Control.h`
(STANDBY, REGANDO, CONFIGURANDO, TERMINANDO, PAUSE, STOP, ERROR). -/
inductive EstadoT where
  | standby
  | regando
  | configurando
  | terminando
  | pause
  | stop
  | error
  deriving DecidableEq, Repr

/-- Fault phase `CERO` from `enum _fases`. -/
def CERO : Nat := 0

/-- Fault phase `E0 = 0xFF` from `enum _fases`. -/
def E0 : Nat := 0xFF

/-- Fault phase `E1` (wifi/connectivity down). -/
def E1 : Nat := 1

/-- Fault phase `E2` (transport or JSON failure). -/
def E2 : Nat := 2

/-- Fault phase `E3` (Domoticz returned an error / field missing). -/
def E3 : Nat := 3

/-- Fault phase `E4` (switch-On command exhausted retries). -/
def E4 : Nat := 4

/-- Fault phase `E5` (switch-Off command exhausted retries). -/
def E5 : Nat := 5

/-- The pair of globals `Estado.estado` / `Estado.fase` plus the global
`errorText` buffer (`S_Estado` in `Control.h` and `char errorText[7]`). -/
structure SysState where
  estado : EstadoT
  fase : Nat
  errorText : String
  deriving DecidableEq, Repr

/-- `setEstado` from `Control.cpp`: sets the state, resets the fase to
`CERO` and clears `errorText`. -/
def setEstado (_s : SysState) (estado : EstadoT) : SysState :=
  { estado := estado, fase := CERO, errorText := "" }

/-- `statusError` from `Control.cpp`: enters ERROR with the given fase and
writes the short error code into `errorText` (`"Err0"` for `E0`,
`"ErrN"` otherwise; the beep count `n` has no effect on the state). -/
def statusError (_s : SysState) (errorID : Nat) (_n : Nat) : SysState :=
  { estado := EstadoT.error, fase := errorID,
    errorText := if errorID = E0 then "Err0" else "Err" ++ Nat.repr errorID }

/-- Abstract outcome of one `httpGetDomoticz` call together with the JSON
decoding performed by the caller: `err2` is the transport failure
(`"Err2"`), `errX` the in-band Domoticz error (`"ErrX"`), `okBad` a
response whose body fails `deserializeJson`, `okNoField` a body missing
the required `result[0]` field, and `okField s` a body whose required
field holds the string `s`. -/
inductive HttpResp where
  | err2
  | errX
  | okBad
  | okNoField
  | okField (s : String)
  deriving DecidableEq, Repr

/-- Environment of one `queryStatus` call: wifi status (`checkWifi`),
the `NONETWORK` offline flag, the two verification simulated-fault flags
and the HTTP response. -/
structure VerifyEnv where
  wifiOk : Bool
  nonetwork : Bool
  simVerifyON : Bool
  simVerifyOFF : Bool
  resp : HttpResp
  deriving DecidableEq, Repr

/-- `queryStatus` from `Control.cpp`: polls the actuator state `idx` and
compares it with the expected `status` string.  Returns the boolean
result together with the (possibly mutated) global `Estado.fase`. -/
def queryStatus (env : VerifyEnv) (status : String) (fase : Nat) : Bool × Nat :=
  if !env.wifiOk then
    if env.nonetwork then (true, fase) else (false, E1)
  else
    match env.resp with
    | HttpResp.err2 => if env.nonetwork then (true, fase) else (false, E2)
    | HttpResp.errX => if env.nonetwork then (true, fase) else (false, E3)
    | HttpResp.okBad => (false, E2)
    | HttpResp.okNoField => (false, E2)
    | HttpResp.okField actual =>
      if env.simVerifyON then (decide (status ≠ "On"), fase)
      else if env.simVerifyOFF then (decide (status ≠ "Off"), fase)
      else if actual = status then (true, fase)
      else if env.nonetwork then (true, fase)
      else (false, fase)

/-- Verification part of `procesaEstadoRegando` in `Control.cpp`:
`rem` is the remaining session time `T.Timer()`, `flagV` the periodic
verification due-flag and `verify` the global `VERIFY` policy. -/
def procesaEstadoRegando (st : SysState) (rem : Nat) (flagV verify : Bool)
    (env : VerifyEnv) : SysState :=
  if rem = 0 then setEstado st EstadoT.terminando
  else if flagV && verify then
    let q := queryStatus env "On" st.fase
    if q.1 then { st with fase := q.2 }
    else if q.2 = CERO then setEstado { st with fase := q.2 } EstadoT.pause
    else statusError { st with fase := q.2 } q.2 3
  else st

/-- `procesaEstadoPause` from `Control.cpp` (the whole function is the
periodic verification of the expected Off state). -/
def procesaEstadoPause (st : SysState) (flagV verify : Bool)
    (env : VerifyEnv) : SysState :=
  if flagV && verify then
    let q := queryStatus env "Off" st.fase
    if q.1 then { st with fase := q.2 }
    else if q.2 = CERO then setEstado { st with fase := q.2 } EstadoT.regando
    else { st with fase := CERO }
  else st

/-- A verification environment that reports a state genuinely different
from `status`: wifi up, not offline, no simulated verification faults,
and a well-formed response whose Status field differs from `status`. -/
def pureMismatch (env : VerifyEnv) (status : String) : Prop :=
  env.wifiOk = true ∧ env.nonetwork = false ∧ env.simVerifyON = false ∧
  env.simVerifyOFF = false ∧ ∃ s, env.resp = HttpResp.okField s ∧ s ≠ status

/-- `timeByFactor` from `Control.cpp`: scales the base duration read from
the uint8_t globals `minutes`/`seconds` by the percentage `factor`.
`tseconds` is a C `uint` (the product is reduced modulo `2 ^ 32`), and
the two outputs are written through `uint8_t` pointers (reduced modulo
`2 ^ 8`). -/
def timeByFactor (factor minutes seconds : Nat) : Nat × Nat :=
  let t0 : Nat := 60 * (minutes % 2 ^ 8) + seconds % 2 ^ 8
  let t : Nat := t0 * (factor % 2 ^ 32) % 2 ^ 32 / 100
  (t / 60 % 2 ^ 8, t % 60 % 2 ^ 8)

/-- Inputs read by `procesaBotonZona` in `Control.cpp`: the global
machine state, the `encoderSW` and `multirriego` globals, the base
duration globals, the pressed zone's stored duration factor
(`factorRiegos[zIndex]`) and bound actuator identifier (`boton->idx`),
whether the pressed button is a real zone (`bID_zIndex(id) != 999`),
and an abstraction of the fault `initRiego`/`domoticzSwitch` would
raise when commanding the actuator on (`none` = command succeeds). -/
structure ZonaCtx where
  st : SysState
  encoderSW : Bool
  multirriego : Bool
  minutes : Nat
  seconds : Nat
  factorZ : Nat
  idx : Nat
  zoneValid : Bool
  initRiegoFault : Option Nat
  deriving DecidableEq, Repr

/-- Observable outcome of `procesaBotonZona`: the new machine state,
whether `initRiego` was invoked (the path that issues the actuator On
command), and whether the countdown timer was started. -/
structure ZonaRes where
  st : SysState
  onCommand : Bool
  timerStarted : Bool
  deriving DecidableEq, Repr

/-- `procesaBotonZona` from `Control.cpp`.  In STANDBY, a session start
(`!encoderSW || multirriego`) computes the scaled duration (via
`timeByFactor` in a multi-group sequence, the raw base duration
otherwise); a zero duration or an unbound actuator (`idx == 0`)
short-circuits to TERMINANDO without starting the timer or calling
`initRiego`; otherwise the timer starts and `initRiego` runs, entering
REGANDO unless it raised a fault.  With the encoder pressed outside a
multi-group sequence the zone's factor is only displayed. -/
def procesaBotonZona (c : ZonaCtx) : ZonaRes :=
  if !c.zoneValid then ⟨c.st, false, false⟩
  else if c.st.estado = EstadoT.standby then
    if !c.encoderSW || c.multirriego then
      let d : Nat × Nat :=
        if c.multirriego then timeByFactor c.factorZ c.minutes c.seconds
        else (c.minutes, c.seconds)
      if (d.1 = 0 ∧ d.2 = 0) ∨ c.idx = 0 then
        ⟨setEstado c.st EstadoT.terminando, false, false⟩
      else
        match c.initRiegoFault with
        | some f => ⟨statusError c.st f 3, true, true⟩
        | none => ⟨setEstado c.st EstadoT.regando, true, true⟩
    else ⟨c.st, false, false⟩
  else ⟨c.st, false, false⟩

/-- `ZONAS` from `Control.h`: the button identities of the seven zones,
in declaration order (`bZONA1 … bZONA7`; note `bZONA5 = 0x80`,
`bZONA6 = 0x10`, `bZONA7 = 0x40`). -/
def ZONAS : List Nat := [0x01, 0x02, 0x04, 0x08, 0x80, 0x10, 0x40]

/-- Worker for `bID_zIndex` (`botones.cpp`): position of a button id in
a zone list, offset by the accumulator, `999` when absent. -/
def bID_zIndexAux (id : Nat) : List Nat → Nat → Nat
  | [], _ => 999
  | z :: zs, i => if z = id then i else bID_zIndexAux id zs (i + 1)

/-- `bID_zIndex` from `botones.cpp`: 0-based index of a zone button id
in `ZONAS`, or the sentinel `999`. -/
def bID_zIndex (id : Nat) : Nat := bID_zIndexAux id ZONAS 0

/-- One entry of `Config_parm::groupConfig` (`Grupo_parm` in
`Control.h`): selector identity, group size and the serie of 1-based
zone ordinals (capacity 16 in the C array, modelled as a list). -/
structure Grupo where
  id : Nat
  size : Nat
  serie : List Nat
  deriving DecidableEq, Repr

instance : Inhabited Grupo := ⟨⟨0, 0, []⟩⟩

/-- Worker for `setMultibyId` (`multirriego.cpp`): first index whose
group identity matches, 1-based and offset by the accumulator, `0` when
no group matches. -/
def setMultibyIdAux (id : Nat) : List Grupo → Nat → Nat
  | [], _ => 0
  | g :: gs, i => if g.id = id then i + 1 else setMultibyIdAux id gs (i + 1)

/-- `setMultibyId` from `multirriego.cpp`: resolves a selector position
id against the configured groups, returning the matching group's
1-based ordinal or the not-found sentinel `0`. -/
def setMultibyId (id : Nat) (cfg : List Grupo) : Nat := setMultibyIdAux id cfg 0

/-- The `multi.serie` view bound by `setMultibyId` for a matched group:
`multi.serie[j] = ZONAS[cfg.groupConfig[i].serie[j] - 1]` for
`j < size` (the C code performs no bounds check; out-of-range reads are
modelled with default `0`). -/
def resolveSerie (g : Grupo) : List Nat :=
  (g.serie.take g.size).map (fun z => ZONAS.getD (z - 1) 0)

/-- The `configuringMulti` commit in `procesaEstadoConfigurando`
(`Control.cpp`): writes the working copy back into group `g` of the
configuration — `*multi.size = multi.w_size` and
`config.groupConfig[g-1].serie[i] = bID_zIndex(multi.serie[i]) + 1` for
`i < w_size`; serie entries beyond the new size keep their old values. -/
def commitMultiGroup (cfg : List Grupo) (g : Nat) (wserie : List Nat) : List Grupo :=
  let old := cfg.getD (g - 1) default
  let snew : List Nat :=
    wserie.map (fun id => bID_zIndex id + 1) ++ old.serie.drop wserie.length
  cfg.set (g - 1) { old with size := wserie.length, serie := snew }

/-- Decimal value of the leading digit run of a character list
(accumulator form), used to model C `strtol(s, NULL, 10)`. -/
def parseDigits : List Char → Nat → Nat
  | [], acc => acc
  | c :: cs, acc =>
    if c.isDigit then parseDigits cs (acc * 10 + (c.toNat - 48)) else acc

/-- C `strtol(s, NULL, 10)` as used on the Domoticz Description field:
an optional sign followed by a digit run; anything else parses as 0. -/
def strtol (s : String) : Int :=
  match s.data with
  | [] => 0
  | c :: cs =>
    if c = '-' then -(parseDigits cs 0 : Int)
    else if c = '+' then (parseDigits cs 0 : Int)
    else (parseDigits (c :: cs) 0 : Int)

/-- C `isdigit(s[0])` guard from `getFactor` (false on the empty
string, where the C code tests `strlen` first). -/
def isFirstDigit (s : String) : Bool :=
  match s.data with
  | [] => false
  | c :: _ => c.isDigit

/-- Environment of one `getFactor` call: wifi status (`checkWifi`), the
`NONETWORK` offline flag, the `VERIFY` strict-verification policy and
the HTTP response for the device query. -/
structure FactorEnv where
  wifiOk : Bool
  nonetwork : Bool
  verify : Bool
  resp : HttpResp
  deriving DecidableEq, Repr

/-- Observable outcome of `getFactor`: the returned factor, the fault
raised through `statusError` (`none` when no fault was raised) and
whether the `setEstado(STANDBY)` side branch ran. -/
structure FactorRes where
  value : Int
  fault : Option Nat
  wentStandby : Bool
  deriving DecidableEq, Repr

/-- `getFactor` from `Control.cpp`: queries the per-zone percentage
factor for actuator `idx`.  Returns `0` immediately for an unbound
actuator; `999` when wifi is down or the query failed while in
`NONETWORK` mode; otherwise `100` on every failure path (raising a
fault that depends on the path and on `VERIFY`) and the parsed
Description value on success. -/
def getFactor (idx : Nat) (env : FactorEnv) : FactorRes :=
  if idx = 0 then ⟨0, none, false⟩
  else if !env.wifiOk then
    if env.nonetwork then ⟨999, none, false⟩
    else ⟨100, some E1, false⟩
  else
    match env.resp with
    | HttpResp.err2 =>
      if env.nonetwork then ⟨999, none, true⟩ else ⟨100, some E2, false⟩
    | HttpResp.errX =>
      if env.nonetwork then ⟨999, none, true⟩ else ⟨100, some E3, false⟩
    | HttpResp.okBad =>
      if !env.verify then ⟨100, none, false⟩ else ⟨100, some E2, false⟩
    | HttpResp.okNoField =>
      if !env.verify then ⟨100, none, false⟩ else ⟨100, some E3, false⟩
    | HttpResp.okField s =>
      let factor := strtol s
      if factor = 0 ∧ (s.length = 0 ∨ !isFirstDigit s) then ⟨100, none, false⟩
      else ⟨factor, none, false⟩

/-- The endpoint is unreachable for `getFactor`: wifi is down or the
HTTP query itself failed (`Err2`/`ErrX` response). -/
def endpointUnreachable (env : FactorEnv) : Prop :=
  env.wifiOk = false ∨ env.resp = HttpResp.err2 ∨ env.resp = HttpResp.errX

/-- A parse or lookup failure of a received endpoint response: the body
does not deserialize, the Description field is missing, or its content
is non-numeric. -/
def factorParseFailure (env : FactorEnv) : Prop :=
  env.resp = HttpResp.okBad ∨ env.resp = HttpResp.okNoField ∨
  ∃ s, env.resp = HttpResp.okField s ∧ strtol s = 0 ∧
    (s.length = 0 ∨ isFirstDigit s = false)

/-- Conversion of the `int` returned by `getFactor` to the C `uint`
cell of `factorRiegos` (two's-complement reduction modulo `2 ^ 32`). -/
def toUint (i : Int) : Nat := (i % (2 ^ 32 : Int)).toNat

/-- Loop body of `initFactorRiegos` (`Control.cpp`): every cell starts
at the neutral `100`; each zone's factor is fetched in order and the
loop breaks on the `999` sentinel or on a raised fault, leaving the
remaining cells at `100`. -/
def initFactorLoop (envs : Nat → FactorEnv) : List Nat → Nat → List Nat
  | [], _ => []
  | idx :: rest, i =>
    let r := getFactor idx (envs i)
    if toUint r.value = 999 then 100 :: rest.map (fun _ => 100)
    else if r.fault.isSome then 100 :: rest.map (fun _ => 100)
    else toUint r.value :: initFactorLoop envs rest (i + 1)

/-- `initFactorRiegos` from `Control.cpp`, as a function from the list
of per-zone actuator identifiers (`Boton[bID_bIndex(ZONAS[i])].idx`)
and the per-iteration network environment to the final `factorRiegos`
array. -/
def initFactorRiegos (idxs : List Nat) (envs : Nat → FactorEnv) : List Nat :=
  initFactorLoop envs idxs 0

/-- One entry of the `Boton` table (`S_BOTON` in `Control.h`) as seen
by `parseInputs`.  The C `estado` field stores `inputs & id`, which for
a fixed button is either `0` or its id bit; it is modelled as a Bool. -/
structure Btn where
  id : Nat
  estado : Bool
  ultimo : Bool
  enabled : Bool
  action : Bool
  dual : Bool
  hold : Bool
  holddisabled : Bool
  deriving DecidableEq, Repr

/-- The state owned by `parseInputs` (`botones.cpp`): the static
`lastMillis` debounce stamp and the `Boton` table. -/
structure InputState where
  lastMillis : Nat
  botones : List Btn
  deriving DecidableEq, Repr

/-- Result of one `parseInputs` call: the emitted event (the returned
`S_BOTON*`, `none` for NULL), the new engine state, and whether the
hardware was sampled (`readInputs()` invoked). -/
structure ParseRes where
  event : Option Btn
  state : InputState
  sampled : Bool
  deriving DecidableEq, Repr

/-- The per-button scan loop of `parseInputs` (`botones.cpp`): for every
enabled button the freshly sampled state is stored; on a state change —
or a held hold-detect button whose hold-disabled flag is clear —
`ultimo_estado` is updated, and if the button is pressed or dual-edge
the scan returns it in READ mode (leaving later buttons untouched). -/
def scanBotones (inputs : Nat) (readMode : Bool) : List Btn → Option Btn × List Btn
  | [] => (none, [])
  | b :: bs =>
    if !b.enabled then
      let r := scanBotones inputs readMode bs
      (r.1, b :: r.2)
    else
      let est : Bool := decide (inputs &&& b.id ≠ 0)
      let b1 := { b with estado := est }
      if est ≠ b.ultimo ∨ (est && b.hold && !b.holddisabled) = true then
        let b2 := { b1 with ultimo := est }
        if (est || b.dual) && readMode then (some b2, b2 :: bs)
        else
          let r := scanBotones inputs readMode bs
          (r.1, b2 :: r.2)
      else
        let r := scanBotones inputs readMode bs
        (r.1, b1 :: r.2)

/-- `DEBOUNCEMILLIS` from `botones.cpp`. -/
def DEBOUNCEMILLIS : Nat := 20

/-- `parseInputs` from `botones.cpp`: when called before the debounce
window since the last accepted poll has elapsed (`millis()` is an
unsigned long, so `lastMillis + 20` wraps modulo `2 ^ 32`), it returns
NULL without sampling the hardware or touching any button; otherwise it
accepts the poll, samples the input bitmap and scans the buttons. -/
def parseInputs (st : InputState) (now : Nat) (inputs : Nat) (readMode : Bool) : ParseRes :=
  if now < (st.lastMillis + DEBOUNCEMILLIS) % 2 ^ 32 then ⟨none, st, false⟩
  else
    let r := scanBotones inputs readMode st.botones
    ⟨r.1, ⟨now, r.2⟩, true⟩

/-- `DEFAULT_SWITCH_RETRIES` from `Control.h`. -/
def DEFAULT_SWITCH_RETRIES : Nat := 5

/-- `DELAYRETRY` from `Control.h` (milliseconds waited between switch
attempts). -/
def DELAYRETRY : Nat := 2000

/-- Environment of one `domoticzSwitch` call: wifi status, the
`NONETWORK` offline flag, the two command simulated-fault flags, the
global `errorOFF` flag, and the response of the k-th HTTP call. -/
structure SwitchCtx where
  wifiOk : Bool
  nonetwork : Bool
  simErrorON : Bool
  simErrorOFF : Bool
  errorOFF : Bool
  responses : Nat → HttpResp

/-- The simulated-failure guard of the `domoticzSwitch` retry loop:
`(simular.ErrorON && msg=="On") || (simular.ErrorOFF && msg=="Off")`. -/
def simFail (c : SwitchCtx) (msgOn : Bool) : Bool :=
  (c.simErrorON && msgOn) || (c.simErrorOFF && !msgOn)

/-- The retry loop of `domoticzSwitch`: at most `fuel` iterations; each
iteration either fabricates `ErrX` (simulated failure), performs one
HTTP call when not in `NONETWORK` mode, or leaves the response variable
untouched; an `ErrX` response waits `DELAYRETRY` and retries, anything
else breaks.  Returns the final response (`none` models the initially
empty C++ `String`), the number of HTTP calls and the number of delays. -/
def switchLoop (c : SwitchCtx) (msgOn : Bool) :
    Nat → Option HttpResp → Nat → Nat → Option HttpResp × Nat × Nat
  | 0, resp, calls, delays => (resp, calls, delays)
  | fuel + 1, resp, calls, delays =>
    let step : Option HttpResp × Nat :=
      if simFail c msgOn then (some HttpResp.errX, calls)
      else if !c.nonetwork then (some (c.responses calls), calls + 1)
      else (resp, calls)
    if step.1 = some HttpResp.errX then
      switchLoop c msgOn fuel step.1 step.2 (delays + 1)
    else (step.1, step.2, delays)

/-- Whether the final response starts with `"Err"` (`Err2` or `ErrX`). -/
def isErrResp : Option HttpResp → Bool
  | some HttpResp.err2 => true
  | some HttpResp.errX => true
  | _ => false

/-- Observable outcome of `domoticzSwitch`: success flag, number of HTTP
calls, number of inter-attempt delays, and the fault raised through
`statusError` (`none` when no fault was raised). -/
structure SwitchRes where
  ok : Bool
  calls : Nat
  delays : Nat
  fault : Option Nat
  deriving DecidableEq, Repr

/-- `domoticzSwitch` from `Control.cpp`: no-op success for an unbound
actuator (`idx == 0`); an immediate `E1` fault when wifi is down while
not in `NONETWORK` mode; otherwise the bounded retry loop, after which
an `Err`-response raises `E4`/`E5` (On/Off command exhausted) or `E2`
(transport) unless `errorOFF` already suppressed faults. -/
def domoticzSwitch (idx : Nat) (msgOn : Bool) (retries : Nat) (c : SwitchCtx) : SwitchRes :=
  if idx = 0 then ⟨true, 0, 0, none⟩
  else if !c.wifiOk && !c.nonetwork then ⟨false, 0, 0, some E1⟩
  else
    let r := switchLoop c msgOn retries none 0 0
    if isErrResp r.1 then
      let fault : Option Nat :=
        if c.errorOFF then none
        else if r.1 = some HttpResp.errX then (if msgOn then some E4 else some E5)
        else some E2
      ⟨false, r.2.1, r.2.2, fault⟩
    else ⟨true, r.2.1, r.2.2, none⟩

/-!  Helper lemmas shared by the claim theorems. -/

/-- Specification of the `setMultibyId` worker: either no group matches
and the sentinel `0` is returned, or the returned ordinal points (after
removing the accumulator offset) at a matching group and stays within
the configured range. -/
theorem setMultibyIdAux_spec (id : Nat) :
    ∀ (cfg : List Grupo) (i : Nat),
      (setMultibyIdAux id cfg i = 0 ∧ ∀ g ∈ cfg, g.id ≠ id) ∨
      (i + 1 ≤ setMultibyIdAux id cfg i ∧
        setMultibyIdAux id cfg i ≤ i + cfg.length ∧
        (cfg.getD (setMultibyIdAux id cfg i - 1 - i) default).id = id)
  | [], _ => Or.inl ⟨rfl, by simp⟩
  | g :: gs, i => by
    by_cases hg : g.id = id
    · right
      simp only [setMultibyIdAux, if_pos hg]
      refine ⟨Nat.le_refl _, by simp, ?_⟩
      have h0 : i + 1 - 1 - i = 0 := by omega
      rw [h0]
      simpa using hg
    · have IH := setMultibyIdAux_spec id gs (i + 1)
      simp only [setMultibyIdAux, if_neg hg]
      rcases IH with ⟨h0, hall⟩ | ⟨h1, h2, h3⟩
      · refine Or.inl ⟨h0, ?_⟩
        intro x hx
        rcases List.mem_cons.mp hx with rfl | hx
        · exact hg
        · exact hall x hx
      · refine Or.inr ⟨by omega, by simp only [List.length_cons]; omega, ?_⟩
        have heq : setMultibyIdAux id gs (i + 1) - 1 - i
            = (setMultibyIdAux id gs (i + 1) - 1 - (i + 1)) + 1 := by omega
        rw [heq, List.getD_cons_succ]
        exact h3

/-- Replacing the matched group with one of the same identity does not
change which (first-match) ordinal `setMultibyId`'s worker returns. -/
theorem setMultibyIdAux_set_match (id : Nat) (g2 : Grupo) (hid : g2.id = id) :
    ∀ (cfg : List Grupo) (i j : Nat), setMultibyIdAux id cfg i = j → i + 1 ≤ j →
      setMultibyIdAux id (cfg.set (j - 1 - i) g2) i = j
  | [], i, j, hj, hij => by
    simp only [setMultibyIdAux] at hj
    omega
  | c :: cs, i, j, hj, hij => by
    by_cases hc : c.id = id
    · simp only [setMultibyIdAux, if_pos hc] at hj
      have h0 : j - 1 - i = 0 := by omega
      rw [h0]
      simpa [setMultibyIdAux, hid] using hj
    · simp only [setMultibyIdAux, if_neg hc] at hj
      have hspec := setMultibyIdAux_spec id cs (i + 1)
      have hj2 : i + 2 ≤ j := by
        rcases hspec with ⟨h0, _⟩ | ⟨h1, _, _⟩ <;> omega
      have hstep : j - 1 - i = (j - 1 - (i + 1)) + 1 := by omega
      rw [hstep, List.set_cons_succ]
      simp only [setMultibyIdAux, if_neg hc]
      exact setMultibyIdAux_set_match id g2 hid cs (i + 1) j hj hj2

/-- Resolving the stored 1-based ordinal of a zone button recovers the
button id, for every id present in `ZONAS`. -/
theorem getD_bID_zIndex (b : Nat) (hb : b ∈ ZONAS) :
    ZONAS.getD (bID_zIndex b) 0 = b := by
  simp only [ZONAS, List.mem_cons, List.not_mem_nil, or_false] at hb
  rcases hb with rfl | rfl | rfl | rfl | rfl | rfl | rfl <;> rfl

/-- Claim C3: for every selector position id and configuration
snapshot, `setMultibyId` is total — it returns the not-found sentinel
`0` (exactly when no configured group's identity matches) or a valid
1-based ordinal within the configured groups whose group matches the
id; never any other value. -/
theorem C3_setMultibyId_total (id : Nat) (cfg : List Grupo) :
    (setMultibyId id cfg = 0 ∧ ∀ g ∈ cfg, g.id ≠ id) ∨
    (1 ≤ setMultibyId id cfg ∧ setMultibyId id cfg ≤ cfg.length ∧
      (cfg.getD (setMultibyId id cfg - 1) default).id = id) := by
  have h := setMultibyIdAux_spec id cfg 0
  simpa [setMultibyId] using h

/-- Counterexample for claim C5: with base duration 59:00 and factor
1000 the scaled total is 35400 s, whose minute decomposition 590 does
not fit the uint8_t output — `timeByFactor` stores 78 = 590 mod 256. -/
theorem C5_counterexample :
    (timeByFactor 1000 59 0).1 = 78 ∧
    (60 * 59 + 0) * 1000 / 100 / 60 = 590 ∧ (78 : Nat) ≠ 590 := by decide

/-- Claim C5 (corrected): for every uint8 base duration and factor, in
the absence of 32-bit overflow of the product, the scaled total is
`(60*minutes + seconds) * factor / 100` with integer truncation;
`fseconds` is exactly its remainder mod 60, while `fminutes` is its
quotient by 60 reduced modulo 256 (uint8_t truncation), equal to the
exact quotient precisely when the latter fits in a byte — in
particular for every factor of at most 100. -/
theorem C5_amended (factor m s : Nat) (hm : m < 2 ^ 8) (hs : s < 2 ^ 8)
    (hf : factor < 2 ^ 32) (hprod : (60 * m + s) * factor < 2 ^ 32) :
    (timeByFactor factor m s).2 = (60 * m + s) * factor / 100 % 60 ∧
    (timeByFactor factor m s).1 = (60 * m + s) * factor / 100 / 60 % 2 ^ 8 ∧
    ((60 * m + s) * factor / 100 / 60 < 2 ^ 8 →
      (timeByFactor factor m s).1 = (60 * m + s) * factor / 100 / 60) := by
  have h1 : m % 2 ^ 8 = m := Nat.mod_eq_of_lt hm
  have h2 : s % 2 ^ 8 = s := Nat.mod_eq_of_lt hs
  have h3 : factor % 2 ^ 32 = factor := Nat.mod_eq_of_lt hf
  simp only [timeByFactor, h1, h2, h3, Nat.mod_eq_of_lt hprod]
  refine ⟨?_, trivial, ?_⟩
  · exact Nat.mod_eq_of_lt
      (Nat.lt_trans (Nat.mod_lt _ (by norm_num)) (by norm_num))
  · intro h
    exact Nat.mod_eq_of_lt h

/-- Witness for claim C5 at base 10:30 and the neutral factor 100. -/
theorem C5_amended_witness :
    (timeByFactor 100 10 30).2 = (60 * 10 + 30) * 100 / 100 % 60 ∧
    (timeByFactor 100 10 30).1 = (60 * 10 + 30) * 100 / 100 / 60 % 2 ^ 8 ∧
    ((60 * 10 + 30) * 100 / 100 / 60 < 2 ^ 8 →
      (timeByFactor 100 10 30).1 = (60 * 10 + 30) * 100 / 100 / 60) :=
  C5_amended 100 10 30 (by decide) (by decide) (by decide) (by decide)

/-- Counterexample for claim C6: when `lastMillis + 20` wraps modulo
`2 ^ 32` (here `lastMillis = 2 ^ 32 - 10`), a poll only 7 ms after the
last accepted poll — inside the 20 ms debounce window — is wrongly
accepted by the unsigned comparison: the hardware is sampled, a pressed
button's stored state changes and an event is emitted. -/
theorem C6_counterexample :
    2 ^ 32 - 3 < (2 ^ 32 - 10) + DEBOUNCEMILLIS ∧
    (parseInputs ⟨2 ^ 32 - 10, [⟨0x01, false, false, true, true, false, false, false⟩]⟩
        (2 ^ 32 - 3) 1 true).sampled = true ∧
    (parseInputs ⟨2 ^ 32 - 10, [⟨0x01, false, false, true, true, false, false, false⟩]⟩
        (2 ^ 32 - 3) 1 true).event
      = some ⟨0x01, true, true, true, true, false, false, false⟩ ∧
    (parseInputs ⟨2 ^ 32 - 10, [⟨0x01, false, false, true, true, false, false, false⟩]⟩
        (2 ^ 32 - 3) 1 true).state
      ≠ ⟨2 ^ 32 - 10, [⟨0x01, false, false, true, true, false, false, false⟩]⟩ := by
  decide

/-- Claim C6 (corrected): a `parseInputs` call before the 20 ms
debounce window since the last accepted poll has elapsed returns no
event, does not sample the hardware and leaves every button's stored
state unchanged — provided the 32-bit `lastMillis + 20` computation
does not wrap; a second poll still inside the window then yields the
identical no-event outcome.  (In the wrap corner, `lastMillis` within
20 ms of the unsigned-long rollover, an in-window poll is wrongly
accepted and samples the hardware.) -/
theorem C6_debounce (st : InputState) (now inputs : Nat) (readMode : Bool)
    (h1 : now < st.lastMillis + DEBOUNCEMILLIS)
    (h2 : st.lastMillis + DEBOUNCEMILLIS < 2 ^ 32) :
    parseInputs st now inputs readMode = ⟨none, st, false⟩ ∧
    (∀ now2 inputs2 readMode2, now2 < st.lastMillis + DEBOUNCEMILLIS →
      parseInputs (parseInputs st now inputs readMode).state now2 inputs2 readMode2
        = ⟨none, st, false⟩) := by
  have hcond : now < (st.lastMillis + DEBOUNCEMILLIS) % 2 ^ 32 := by
    rw [Nat.mod_eq_of_lt h2]
    exact h1
  have hmain : parseInputs st now inputs readMode = ⟨none, st, false⟩ := by
    simp only [parseInputs]
    rw [if_pos hcond]
  refine ⟨hmain, ?_⟩
  intro now2 inputs2 readMode2 hlt
  have hcond2 : now2 < (st.lastMillis + DEBOUNCEMILLIS) % 2 ^ 32 := by
    rw [Nat.mod_eq_of_lt h2]
    exact hlt
  rw [hmain]
  simp only [parseInputs]
  rw [if_pos hcond2]

/-- Witness for claim C6: with the last accepted poll at 100 ms, polls
at 110 ms and 115 ms both return no event and leave the engine state
untouched. -/
theorem C6_debounce_witness :
    parseInputs ⟨100, [⟨0x01, false, false, true, true, false, false, false⟩]⟩
        110 7 true
      = ⟨none, ⟨100, [⟨0x01, false, false, true, true, false, false, false⟩]⟩, false⟩ ∧
    parseInputs
        (parseInputs ⟨100, [⟨0x01, false, false, true, true, false, false, false⟩]⟩
          110 7 true).state 115 3 true
      = ⟨none, ⟨100, [⟨0x01, false, false, true, true, false, false, false⟩]⟩, false⟩ :=
  ⟨(C6_debounce _ 110 7 true (by decide) (by decide)).1,
   (C6_debounce _ 110 7 true (by decide) (by decide)).2 115 3 true (by decide)⟩

/-- Claim C9: every `setEstado` call — i.e. every state entry other
than through `statusError` — resets the fault phase to `CERO` and
clears the pending error text, while `statusError` enters ERROR with
the given nonzero fault phase and a non-empty error text. -/
theorem C9_state_entry_invariant :
    (∀ s e, (setEstado s e).estado = e ∧ (setEstado s e).fase = CERO ∧
      (setEstado s e).errorText = "") ∧
    (∀ s errorID n, errorID ≠ CERO →
      (statusError s errorID n).estado = EstadoT.error ∧
      (statusError s errorID n).fase = errorID ∧
      (statusError s errorID n).fase ≠ CERO ∧
      (statusError s errorID n).errorText ≠ "") := by
  constructor
  · intro s e
    exact ⟨rfl, rfl, rfl⟩
  · intro s errorID n h
    refine ⟨rfl, rfl, h, ?_⟩
    simp only [statusError]
    by_cases hE : errorID = E0
    · simp only [if_pos hE]
      decide
    · simp only [if_neg hE]
      intro hcontra
      have hd := congrArg String.data hcontra
      rw [String.data_append] at hd
      simp only [List.append_eq_nil] at hd
      exact absurd hd.1 (by decide)

/-- Witness for claim C9: leaving ERROR for STANDBY clears the fault
phase and error text; entering ERROR with fase `E2` records it with a
non-empty error text. -/
theorem C9_witness :
    (setEstado ⟨EstadoT.error, 3, "Err3"⟩ EstadoT.standby).fase = CERO ∧
    (setEstado ⟨EstadoT.error, 3, "Err3"⟩ EstadoT.standby).errorText = "" ∧
    (statusError ⟨EstadoT.standby, 0, ""⟩ 2 3).estado = EstadoT.error ∧
    (statusError ⟨EstadoT.standby, 0, ""⟩ 2 3).errorText ≠ "" :=
  ⟨(C9_state_entry_invariant.1 ⟨EstadoT.error, 3, "Err3"⟩ EstadoT.standby).2.1,
   (C9_state_entry_invariant.1 ⟨EstadoT.error, 3, "Err3"⟩ EstadoT.standby).2.2,
   (C9_state_entry_invariant.2 ⟨EstadoT.standby, 0, ""⟩ 2 3 (by decide)).1,
   (C9_state_entry_invariant.2 ⟨EstadoT.standby, 0, ""⟩ 2 3 (by decide)).2.2.2⟩

/-- Claim C8: committing an "editing group" session with a working zone
list writes that list (as 1-based zone ordinals) and its size into the
persisted group, and resolving the same selector id afterwards yields
the same group ordinal with exactly the committed ordered zone list and
size. -/
theorem C8_group_roundtrip (cfg : List Grupo) (id g : Nat) (ws : List Nat)
    (hres : setMultibyId id cfg = g) (hg : 1 ≤ g)
    (hz : ∀ b ∈ ws, b ∈ ZONAS) :
    setMultibyId id (commitMultiGroup cfg g ws) = g ∧
    ((commitMultiGroup cfg g ws).getD (g - 1) default).size = ws.length ∧
    resolveSerie ((commitMultiGroup cfg g ws).getD (g - 1) default) = ws := by
  have hspec := setMultibyIdAux_spec id cfg 0
  rw [setMultibyId] at hres
  rcases hspec with ⟨h0, _⟩ | ⟨h1, h2, h3⟩
  · omega
  · have hlen : g - 1 < cfg.length := by omega
    rw [hres] at h3
    have holdid : (cfg.getD (g - 1) default).id = id := by
      simpa using h3
    have hcommit : commitMultiGroup cfg g ws
        = cfg.set (g - 1)
          ⟨(cfg.getD (g - 1) default).id, ws.length,
            ws.map (fun b => bID_zIndex b + 1)
              ++ (cfg.getD (g - 1) default).serie.drop ws.length⟩ := rfl
    have hget : (commitMultiGroup cfg g ws).getD (g - 1) default
        = ⟨(cfg.getD (g - 1) default).id, ws.length,
            ws.map (fun b => bID_zIndex b + 1)
              ++ (cfg.getD (g - 1) default).serie.drop ws.length⟩ := by
      rw [hcommit]
      simp [List.getD_eq_getElem?_getD, List.getElem?_set_self',
        List.getElem?_eq_getElem (by simpa using hlen)]
    refine ⟨?_, ?_, ?_⟩
    · rw [setMultibyId, hcommit]
      have hstab := setMultibyIdAux_set_match id
        ⟨(cfg.getD (g - 1) default).id, ws.length,
          ws.map (fun b => bID_zIndex b + 1)
            ++ (cfg.getD (g - 1) default).serie.drop ws.length⟩
        holdid cfg 0 g hres (by omega)
      simpa using hstab
    · rw [hget]
    · rw [hget]
      simp only [resolveSerie]
      rw [show ws.length = (ws.map (fun b => bID_zIndex b + 1)).length from
        (List.length_map _ _).symm]
      rw [List.take_left, List.map_map]
      have hcomp : ∀ b ∈ ws,
          ((fun z => ZONAS.getD (z - 1) 0) ∘ fun b => bID_zIndex b + 1) b = b := by
        intro b hb
        simp only [Function.comp, Nat.add_sub_cancel]
        exact getD_bID_zIndex b (hz b hb)
      rw [List.map_congr_left hcomp]
      exact List.map_id ws

/-- Witness for claim C8: editing GRUPO1 to the working list
[ZONA2, ZONA5, ZONA1] and resolving it again returns ordinal 1 with the
same ordered zone list of size 3. -/
theorem C8_group_roundtrip_witness :
    setMultibyId 0x400
        (commitMultiGroup
          [⟨0x400, 1, [1]⟩, ⟨0xFF01, 1, [2]⟩, ⟨0x200, 1, [3]⟩] 1 [2, 0x80, 1]) = 1 ∧
    ((commitMultiGroup
        [⟨0x400, 1, [1]⟩, ⟨0xFF01, 1, [2]⟩, ⟨0x200, 1, [3]⟩] 1
        [2, 0x80, 1]).getD 0 default).size = 3 ∧
    resolveSerie
        ((commitMultiGroup
          [⟨0x400, 1, [1]⟩, ⟨0xFF01, 1, [2]⟩, ⟨0x200, 1, [3]⟩] 1
          [2, 0x80, 1]).getD 0 default) = [2, 0x80, 1] :=
  C8_group_roundtrip [⟨0x400, 1, [1]⟩, ⟨0xFF01, 1, [2]⟩, ⟨0x200, 1, [3]⟩]
    0x400 1 [2, 0x80, 1] rfl (by decide) (by decide)

/-- Claim C2: a session-starting zone press in STANDBY whose computed
duration is 0:00, or whose zone has no bound actuator (`idx == 0`),
transitions directly to TERMINANDO (never REGANDO), with no timer start
and no actuator On command. -/
theorem C2_zero_duration_short_circuit (c : ZonaCtx)
    (hstand : c.st.estado = EstadoT.standby) (hvalid : c.zoneValid = true)
    (hstart : c.encoderSW = false ∨ c.multirriego = true)
    (hzero :
      ((if c.multirriego then timeByFactor c.factorZ c.minutes c.seconds
        else (c.minutes, c.seconds)).1 = 0 ∧
       (if c.multirriego then timeByFactor c.factorZ c.minutes c.seconds
        else (c.minutes, c.seconds)).2 = 0) ∨ c.idx = 0) :
    procesaBotonZona c = ⟨setEstado c.st EstadoT.terminando, false, false⟩ ∧
    (procesaBotonZona c).st.estado = EstadoT.terminando ∧
    (procesaBotonZona c).onCommand = false ∧
    (procesaBotonZona c).timerStarted = false := by
  have hmain : procesaBotonZona c = ⟨setEstado c.st EstadoT.terminando, false, false⟩ := by
    simp only [procesaBotonZona, hvalid, hstand, Bool.not_true, Bool.false_eq_true,
      if_false, if_pos rfl]
    have hcase : (!c.encoderSW || c.multirriego) = true := by
      rcases hstart with he | hm
      · rw [he]
        rfl
      · rw [hm]
        exact Bool.or_true _
    rw [if_pos hcase, if_pos hzero]
    simp
  refine ⟨hmain, ?_, ?_, ?_⟩ <;> simp [hmain, setEstado]

/-- Witness for claim C2: a single-zone press with base duration 0:00
short-circuits STANDBY to TERMINANDO with no commands issued. -/
theorem C2_zero_duration_witness :
    procesaBotonZona ⟨⟨EstadoT.standby, 0, ""⟩, false, false, 0, 0, 100, 5, true, none⟩
      = ⟨⟨EstadoT.terminando, 0, ""⟩, false, false⟩ ∧
    (procesaBotonZona
      ⟨⟨EstadoT.standby, 0, ""⟩, false, false, 0, 0, 100, 5, true, none⟩).st.estado
      = EstadoT.terminando ∧
    (procesaBotonZona
      ⟨⟨EstadoT.standby, 0, ""⟩, false, false, 0, 0, 100, 5, true, none⟩).onCommand
      = false ∧
    (procesaBotonZona
      ⟨⟨EstadoT.standby, 0, ""⟩, false, false, 0, 0, 100, 5, true, none⟩).timerStarted
      = false :=
  C2_zero_duration_short_circuit
    ⟨⟨EstadoT.standby, 0, ""⟩, false, false, 0, 0, 100, 5, true, none⟩
    rfl rfl (Or.inl rfl) (by decide)

/-- Counterexample for claim C1: in WATERING with fault-phase CERO a
first pure divergence (expected On, reported Off) transitions to PAUSE,
but the next divergence of the same session without any intervening
successful match (now expecting Off in PAUSE while the remote reports
On) transitions back to WATERING — not to ERROR as the claim states. -/
theorem C1_counterexample :
    (procesaEstadoRegando ⟨EstadoT.regando, CERO, ""⟩ 10 true true
        ⟨true, false, false, false, HttpResp.okField "Off"⟩).estado = EstadoT.pause ∧
    (procesaEstadoPause
        (procesaEstadoRegando ⟨EstadoT.regando, CERO, ""⟩ 10 true true
          ⟨true, false, false, false, HttpResp.okField "Off"⟩)
        true true ⟨true, false, false, false, HttpResp.okField "On"⟩).estado
      = EstadoT.regando ∧
    (procesaEstadoPause
        (procesaEstadoRegando ⟨EstadoT.regando, CERO, ""⟩ 10 true true
          ⟨true, false, false, false, HttpResp.okField "Off"⟩)
        true true ⟨true, false, false, false, HttpResp.okField "On"⟩).estado
      ≠ EstadoT.error := by decide

/-- Claim C1 (corrected): during a verified WATERING session a pure
state disagreement while the fault-phase is CERO transitions to PAUSE;
a pure disagreement detected afterwards in PAUSE (fault-phase still
CERO) auto-resumes to WATERING instead of promoting to ERROR, so the
grace period can recur; the WATERING verification promotes to ERROR —
tagged with the recorded phase code — exactly when the status query
itself records a nonzero fault phase (connectivity or decode fault). -/
theorem C1_amended (st : SysState) (rem : Nat) (env1 env2 : VerifyEnv) (f : Nat) :
    (st.estado = EstadoT.regando → st.fase = CERO → rem ≠ 0 →
      pureMismatch env1 "On" →
      procesaEstadoRegando st rem true true env1 = ⟨EstadoT.pause, CERO, ""⟩) ∧
    (st.estado = EstadoT.pause → st.fase = CERO → pureMismatch env2 "Off" →
      procesaEstadoPause st true true env2 = ⟨EstadoT.regando, CERO, ""⟩) ∧
    (rem ≠ 0 → queryStatus env1 "On" st.fase = (false, f) → f ≠ CERO →
      procesaEstadoRegando st rem true true env1
        = ⟨EstadoT.error, f, if f = E0 then "Err0" else "Err" ++ Nat.repr f⟩) := by
  refine ⟨?_, ?_, ?_⟩
  · intro _ hfase hrem hmm
    obtain ⟨hw, hn, h1, h2, s, hresp, hsne⟩ := hmm
    have hq0 : queryStatus env1 "On" 0 = (false, 0) := by
      simp [queryStatus, hw, hn, h1, h2, hresp, hsne]
    simp [procesaEstadoRegando, hrem, hfase, CERO, hq0, setEstado]
  · intro _ hfase hmm
    obtain ⟨hw, hn, h1, h2, s, hresp, hsne⟩ := hmm
    have hq0 : queryStatus env2 "Off" 0 = (false, 0) := by
      simp [queryStatus, hw, hn, h1, h2, hresp, hsne]
    simp [procesaEstadoPause, hfase, CERO, hq0, setEstado]
  · intro hrem hq hf
    simp [procesaEstadoRegando, hrem, hq, hf, CERO, statusError]
    intro h0
    exact absurd h0 (by simpa [CERO] using hf)

/-- Witness for claim C1: the two pure-divergence transitions
(WATERING to PAUSE, then PAUSE back to WATERING) and the fatal
promotion on a recorded transport fault (phase `E2`). -/
theorem C1_amended_witness :
    procesaEstadoRegando ⟨EstadoT.regando, 0, ""⟩ 10 true true
        ⟨true, false, false, false, HttpResp.okField "Off"⟩ = ⟨EstadoT.pause, CERO, ""⟩ ∧
    procesaEstadoPause ⟨EstadoT.pause, 0, ""⟩ true true
        ⟨true, false, false, false, HttpResp.okField "On"⟩ = ⟨EstadoT.regando, CERO, ""⟩ ∧
    procesaEstadoRegando ⟨EstadoT.regando, 0, ""⟩ 10 true true
        ⟨true, false, false, false, HttpResp.err2⟩
      = ⟨EstadoT.error, 2, "Err" ++ Nat.repr 2⟩ :=
  ⟨(C1_amended ⟨EstadoT.regando, 0, ""⟩ 10
      ⟨true, false, false, false, HttpResp.okField "Off"⟩
      ⟨true, false, false, false, HttpResp.okField "On"⟩ 0).1 rfl rfl (by decide)
      ⟨rfl, rfl, rfl, rfl, "Off", rfl, by decide⟩,
   (C1_amended ⟨EstadoT.pause, 0, ""⟩ 10
      ⟨true, false, false, false, HttpResp.okField "Off"⟩
      ⟨true, false, false, false, HttpResp.okField "On"⟩ 0).2.1 rfl rfl
      ⟨rfl, rfl, rfl, rfl, "On", rfl, by decide⟩,
   (C1_amended ⟨EstadoT.regando, 0, ""⟩ 10
      ⟨true, false, false, false, HttpResp.err2⟩
      ⟨true, false, false, false, HttpResp.okField "On"⟩ 2).2.2 (by decide)
      (by decide) (by decide)⟩

/-- Counterexample for claim C4: with the endpoint unreachable (wifi
down) `getFactor` returns the 999 sentinel precisely while offline mode
IS enabled (raising no fault), and returns the neutral 100 with a fatal
`E1` connectivity fault while offline mode is disabled — the opposite
of the claimed direction. -/
theorem C4_counterexample :
    (getFactor 5 ⟨false, true, true, HttpResp.okField "90"⟩).value = 999 ∧
    (getFactor 5 ⟨false, true, true, HttpResp.okField "90"⟩).fault = none ∧
    (getFactor 5 ⟨false, false, true, HttpResp.okField "90"⟩).value = 100 ∧
    (getFactor 5 ⟨false, false, true, HttpResp.okField "90"⟩).fault = some E1 := by
  decide

/-- Claim C4 (corrected): `getFactor` returns the neutral 100 on any
parse or lookup failure of a received response; when the endpoint is
unreachable it returns the 999 sentinel exactly when the system IS in
offline mode — and then raises no fault — while unreachable outside
offline mode yields the neutral 100 together with a fatal connectivity
fault (`E1` when wifi is down), regardless of the strict-verification
setting. -/
theorem C4_amended (idx : Nat) (env : FactorEnv) :
    (idx ≠ 0 → endpointUnreachable env →
      ((getFactor idx env).value = 999 ↔ env.nonetwork = true)) ∧
    (idx ≠ 0 → env.wifiOk = false → env.nonetwork = false →
      (getFactor idx env).value = 100 ∧ (getFactor idx env).fault = some E1) ∧
    (idx ≠ 0 → endpointUnreachable env → env.nonetwork = false →
      (getFactor idx env).value = 100 ∧ (getFactor idx env).fault.isSome = true) ∧
    (idx ≠ 0 → endpointUnreachable env → env.nonetwork = true →
      (getFactor idx env).value = 999 ∧ (getFactor idx env).fault = none) ∧
    (idx ≠ 0 → env.wifiOk = true → factorParseFailure env →
      (getFactor idx env).value = 100) := by
  obtain ⟨w, n, v, resp⟩ := env
  refine ⟨?_, ?_, ?_, ?_, ?_⟩
  · intro hidx hun
    rcases hun with hw | hr | hr <;>
      cases w <;> cases n <;>
      simp_all [getFactor, endpointUnreachable, E1, E2, E3]
  · intro hidx hw hn
    subst hw
    subst hn
    simp [getFactor, hidx, E1]
  · intro hidx hun hn
    subst hn
    rcases hun with hw | hr | hr
    · subst hw
      simp [getFactor, hidx, E1]
    · subst hr
      cases w <;> simp_all [getFactor, E1, E2]
    · subst hr
      cases w <;> simp_all [getFactor, E1, E3]
  · intro hidx hun hn
    subst hn
    rcases hun with hw | hr | hr
    · subst hw
      simp [getFactor, hidx]
    · subst hr
      cases w <;> simp_all [getFactor]
    · subst hr
      cases w <;> simp_all [getFactor]
  · intro hidx hw hpf
    subst hw
    rcases hpf with hr | hr | ⟨s, hr, hz, hd⟩ <;> subst hr <;>
      simp_all [getFactor] <;> cases v <;> simp_all

/-- Witness for claim C4: unreachable endpoint while offline returns
999 with no fault, while not offline returns 100 with the fatal `E1`
fault; an undeserializable body returns the neutral 100. -/
theorem C4_amended_witness :
    ((getFactor 5 ⟨false, false, true, HttpResp.okField "90"⟩).value = 100 ∧
      (getFactor 5 ⟨false, false, true, HttpResp.okField "90"⟩).fault = some E1) ∧
    ((getFactor 5 ⟨false, true, true, HttpResp.okField "90"⟩).value = 999 ∧
      (getFactor 5 ⟨false, true, true, HttpResp.okField "90"⟩).fault = none) ∧
    (getFactor 5 ⟨true, false, false, HttpResp.okBad⟩).value = 100 :=
  ⟨(C4_amended 5 ⟨false, false, true, HttpResp.okField "90"⟩).2.1
      (by decide) rfl rfl,
   (C4_amended 5 ⟨false, true, true, HttpResp.okField "90"⟩).2.2.2.1
      (by decide) (Or.inl rfl) rfl,
   (C4_amended 5 ⟨true, false, false, HttpResp.okBad⟩).2.2.2.2
      (by decide) rfl (Or.inl rfl)⟩

/-- The `domoticzSwitch` retry loop performs at most one HTTP call and
one inter-attempt delay per remaining iteration. -/
theorem switchLoop_bound (c : SwitchCtx) (msgOn : Bool) :
    ∀ fuel resp calls delays,
      (switchLoop c msgOn fuel resp calls delays).2.1 ≤ calls + fuel ∧
      (switchLoop c msgOn fuel resp calls delays).2.2 ≤ delays + fuel
  | 0, resp, calls, delays => by simp [switchLoop]
  | fuel + 1, resp, calls, delays => by
    simp only [switchLoop]
    set step : Option HttpResp × Nat :=
      if simFail c msgOn then (some HttpResp.errX, calls)
      else if !c.nonetwork then (some (c.responses calls), calls + 1)
      else (resp, calls) with hstep
    have hs2 : step.2 ≤ calls + 1 := by
      rw [hstep]
      split_ifs <;> simp
    by_cases hx : step.1 = some HttpResp.errX
    · rw [if_pos hx]
      have IH := switchLoop_bound c msgOn fuel step.1 step.2 (delays + 1)
      constructor
      · exact Nat.le_trans IH.1 (by omega)
      · exact Nat.le_trans IH.2 (by omega)
    · rw [if_neg hx]
      dsimp only
      exact ⟨by omega, by omega⟩

/-- In `NONETWORK` mode without a simulated command fault the retry
loop never calls the endpoint and exits at once with the initial empty
response. -/
theorem switchLoop_nonetwork (c : SwitchCtx) (msgOn : Bool)
    (hn : c.nonetwork = true) (hs : simFail c msgOn = false) :
    ∀ fuel, switchLoop c msgOn fuel none 0 0 = (none, 0, 0)
  | 0 => rfl
  | fuel + 1 => by simp [switchLoop, hs, hn]

/-- Claim C7: `domoticzSwitch` succeeds without any remote call when
the zone's bound identifier is 0; on failures it re-attempts the
command at most `retries` times (one `DELAYRETRY` wait per failed
attempt), so with the caller's `DEFAULT_SWITCH_RETRIES` at most 5; and
in `NONETWORK` offline mode (absent a simulated command fault) the
remote call is skipped and the operation reports success. -/
theorem C7_domoticzSwitch (idx : Nat) (msgOn : Bool) (retries : Nat) (c : SwitchCtx) :
    (idx = 0 → domoticzSwitch idx msgOn retries c = ⟨true, 0, 0, none⟩) ∧
    ((domoticzSwitch idx msgOn retries c).calls ≤ retries ∧
      (domoticzSwitch idx msgOn retries c).delays ≤ retries) ∧
    (c.nonetwork = true → simFail c msgOn = false →
      domoticzSwitch idx msgOn retries c = ⟨true, 0, 0, none⟩) := by
  refine ⟨?_, ?_, ?_⟩
  · intro h
    simp [domoticzSwitch, h]
  · by_cases h0 : idx = 0
    · simp [domoticzSwitch, h0]
    · by_cases hw : (!c.wifiOk && !c.nonetwork) = true
      · simp [domoticzSwitch, h0, hw]
      · have hb := switchLoop_bound c msgOn retries none 0 0
        simp only [domoticzSwitch, if_neg h0, hw, Bool.false_eq_true, if_false]
        split_ifs <;> simpa using hb
  · intro hn hs
    by_cases h0 : idx = 0
    · simp [domoticzSwitch, h0]
    · have hw : (!c.wifiOk && !c.nonetwork) = false := by
        rw [hn]
        simp
      simp [domoticzSwitch, h0, hw, switchLoop_nonetwork c msgOn hn hs retries,
        isErrResp]

/-- Witness for claim C7: an unbound zone is a no-op success; with the
default retry budget the call count is bounded by 5; offline mode with
a working environment reports success with zero calls. -/
theorem C7_domoticzSwitch_witness :
    domoticzSwitch 0 true DEFAULT_SWITCH_RETRIES
        ⟨true, true, false, false, false, fun _ => HttpResp.errX⟩
      = ⟨true, 0, 0, none⟩ ∧
    (domoticzSwitch 3 true DEFAULT_SWITCH_RETRIES
        ⟨true, true, false, false, false, fun _ => HttpResp.errX⟩).calls
      ≤ DEFAULT_SWITCH_RETRIES ∧
    domoticzSwitch 3 true DEFAULT_SWITCH_RETRIES
        ⟨true, true, false, false, false, fun _ => HttpResp.errX⟩
      = ⟨true, 0, 0, none⟩ :=
  ⟨(C7_domoticzSwitch 0 true DEFAULT_SWITCH_RETRIES
      ⟨true, true, false, false, false, fun _ => HttpResp.errX⟩).1 rfl,
   (C7_domoticzSwitch 3 true DEFAULT_SWITCH_RETRIES
      ⟨true, true, false, false, false, fun _ => HttpResp.errX⟩).2.1.1,
   (C7_domoticzSwitch 3 true DEFAULT_SWITCH_RETRIES
      ⟨true, true, false, false, false, fun _ => HttpResp.errX⟩).2.2 rfl rfl⟩

/-- As long as no earlier zone broke the `initFactorRiegos` loop (no
999 sentinel and no raised fault), the cell of a non-breaking zone
holds exactly the value `getFactor` returned for it. -/
theorem initFactorLoop_getD (envs : Nat → FactorEnv) :
    ∀ (idxs : List Nat) (k i : Nat), i < idxs.length →
      (∀ j, j < i →
        toUint (getFactor (idxs.getD j 0) (envs (k + j))).value ≠ 999 ∧
        (getFactor (idxs.getD j 0) (envs (k + j))).fault = none) →
      toUint (getFactor (idxs.getD i 0) (envs (k + i))).value ≠ 999 →
      (getFactor (idxs.getD i 0) (envs (k + i))).fault = none →
      (initFactorLoop envs idxs k).getD i 100
        = toUint (getFactor (idxs.getD i 0) (envs (k + i))).value
  | [], k, i, hi, _, _, _ => absurd hi (by simp)
  | idx :: rest, k, i, hi, hprev, hv, hf => by
    cases i with
    | zero =>
      simp only [List.getD_cons_zero, Nat.add_zero] at hv hf ⊢
      simp only [initFactorLoop]
      rw [if_neg hv, if_neg (by simp [hf])]
      rfl
    | succ i2 =>
      have hhead : toUint (getFactor idx (envs k)).value ≠ 999 ∧
          (getFactor idx (envs k)).fault = none := by
        have h := hprev 0 (Nat.succ_pos _)
        rw [List.getD_cons_zero, Nat.add_zero] at h
        exact h
      have harith : k + (i2 + 1) = (k + 1) + i2 := by omega
      rw [List.getD_cons_succ, harith] at hv hf
      simp only [initFactorLoop]
      rw [if_neg hhead.1, if_neg (by simp [hhead.2])]
      rw [List.getD_cons_succ, List.getD_cons_succ, harith]
      exact initFactorLoop_getD envs rest (k + 1) i2
        (by
          have h := Nat.lt_of_succ_lt_succ hi
          simpa using h)
        (fun j hj => by
          have h := hprev (j + 1) (Nat.succ_lt_succ hj)
          rw [List.getD_cons_succ] at h
          have e : k + (j + 1) = (k + 1) + j := by omega
          rw [e] at h
          exact h)
        hv hf

/-- Claim C10: `getFactor` returns 0 (not the neutral 100) for a zone
whose bound actuator identifier is 0 and raises no fault; hence after
`initFactorRiegos` reaches such a zone its stored duration factor is 0;
and a multi-group start of a zone with stored factor 0 computes a 0:00
scaled duration and short-circuits STANDBY to TERMINANDO without any
actuator On command. -/
theorem C10_unbound_zone_factor_zero (env : FactorEnv) (idxs : List Nat)
    (envs : Nat → FactorEnv) (i : Nat) (c : ZonaCtx) (m s : Nat)
    (hi : i < idxs.length) (hidx : idxs.getD i 0 = 0)
    (hprev : ∀ j, j < i →
      toUint (getFactor (idxs.getD j 0) (envs j)).value ≠ 999 ∧
      (getFactor (idxs.getD j 0) (envs j)).fault = none)
    (hstand : c.st.estado = EstadoT.standby) (hvalid : c.zoneValid = true)
    (hmulti : c.multirriego = true) (hfz : c.factorZ = 0) :
    getFactor 0 env = ⟨0, none, false⟩ ∧
    (initFactorRiegos idxs envs).getD i 100 = 0 ∧
    timeByFactor 0 m s = (0, 0) ∧
    (procesaBotonZona c).st.estado = EstadoT.terminando ∧
    (procesaBotonZona c).onCommand = false := by
  have hgf : ∀ e, getFactor 0 e = ⟨0, none, false⟩ := by
    intro e
    simp [getFactor]
  refine ⟨hgf env, ?_, ?_, ?_, ?_⟩
  · have hloop := initFactorLoop_getD envs idxs 0 i hi
      (fun j hj => by
        rw [Nat.zero_add]
        exact hprev j hj)
      (by
        rw [Nat.zero_add, hidx, hgf (envs i)]
        decide)
      (by
        rw [Nat.zero_add, hidx, hgf (envs i)])
    rw [initFactorRiegos, hloop, Nat.zero_add, hidx, hgf (envs i)]
    decide
  · simp [timeByFactor]
  · have hd : (if c.multirriego then timeByFactor c.factorZ c.minutes c.seconds
        else (c.minutes, c.seconds)) = (0, 0) := by
      rw [if_pos hmulti, hfz]
      simp [timeByFactor]
    have h := C2_zero_duration_short_circuit c hstand hvalid (Or.inr hmulti)
      (Or.inl (by rw [hd]; exact ⟨rfl, rfl⟩))
    exact h.2.1
  · have hd : (if c.multirriego then timeByFactor c.factorZ c.minutes c.seconds
        else (c.minutes, c.seconds)) = (0, 0) := by
      rw [if_pos hmulti, hfz]
      simp [timeByFactor]
    have h := C2_zero_duration_short_circuit c hstand hvalid (Or.inr hmulti)
      (Or.inl (by rw [hd]; exact ⟨rfl, rfl⟩))
    exact h.2.2.1

/-- Witness for claim C10: with every zone unbound (`idx = 0`), the
first zone's stored factor is 0 and a multi-group start of it goes
straight to TERMINANDO. -/
theorem C10_unbound_zone_witness :
    getFactor 0 ⟨true, false, true, HttpResp.okField "50"⟩ = ⟨0, none, false⟩ ∧
    (initFactorRiegos [0, 0]
      (fun _ => ⟨true, false, true, HttpResp.okField "50"⟩)).getD 0 100 = 0 ∧
    timeByFactor 0 4 30 = (0, 0) ∧
    (procesaBotonZona
      ⟨⟨EstadoT.standby, 0, ""⟩, false, true, 4, 30, 0, 7, true, none⟩).st.estado
      = EstadoT.terminando ∧
    (procesaBotonZona
      ⟨⟨EstadoT.standby, 0, ""⟩, false, true, 4, 30, 0, 7, true, none⟩).onCommand
      = false :=
  C10_unbound_zone_factor_zero ⟨true, false, true, HttpResp.okField "50"⟩ [0, 0]
    (fun _ => ⟨true, false, true, HttpResp.okField "50"⟩) 0
    ⟨⟨EstadoT.standby, 0, ""⟩, false, true, 4, 30, 0, 7, true, none⟩ 4 30
    (by decide) rfl (fun j hj => absurd hj (by omega)) rfl rfl rfl rfl

end Riego
